import Mathlib

/-!
Verification of the niimpy screen-preprocessing pipeline
(`niimpy/preprocessing/screen.py` and `niimpy/preprocessing/battery.py`).

Tables are modelled as lists of rows; machine times are integers
(seconds); pandas NaN/NaT cells are modelled with `Option`.  Python
exceptions are modelled with `Except PyError`.
-/

/-- Exceptions that the pipeline can raise. -/
inductive PyError where
  | assertionError
  | typeError
  | valueError
  | unboundLocalError
deriving DecidableEq

/-- The `feature_functions` configuration mapping.  Only the two keys the
module reads are modelled; `resample_args` is modelled by the window rule
in seconds. -/
structure Config where
  screen_column_name : Option String
  resample_args : Option Int
deriving DecidableEq

/-- A configuration mapping with no keys set. -/
def emptyConfig : Config := ⟨none, none⟩

/-- One screen or battery event row: columns user, device, time, datetime
and the status column (default name `screen_status`).  `datetime` is the
calendar timestamp in seconds. -/
structure Event where
  user : Nat
  device : Nat
  time : Int
  datetime : Int
  screen_status : Int
deriving DecidableEq

/-- Insert `a` into `l` in front of the first element `b` with `le a b`.
Inserting earlier rows into the already-sorted later rows keeps equal
keys in original order, matching the stable multi-column sort that
`DataFrame.sort_values(by=[...])` performs. -/
def insertLe (le : α → α → Bool) (a : α) : List α → List α
  | [] => [a]
  | b :: t => if le a b then a :: b :: t else b :: insertLe le a t

/-- Stable sort by the Boolean relation `le`. -/
def sortLe (le : α → α → Bool) : List α → List α
  | [] => []
  | a :: t => insertLe le a (sortLe le t)

/-- Lexicographic key order by (user, device, datetime), the sort key of
`sort_values(by=["user","device","datetime"])` (screen.py lines 55, 104
and 143). -/
def evLe (a b : Event) : Bool :=
  decide (a.user < b.user) ||
    (decide (a.user = b.user) &&
      (decide (a.device < b.device) ||
        (decide (a.device = b.device) && decide (a.datetime ≤ b.datetime))))

/-- battery.py lines 22-26, `shutdown_info`: after coercing the series to
numeric (the identity on the integer-coded values modelled here), keep
the values lying strictly between -3 and 0
(`battery_status.between(-3, 0, inclusive=False)`). -/
def shutdown_info (battery_status : List Int) : List Int :=
  battery_status.filter (fun v => decide (-3 < v ∧ v < 0))

/-- Number of parameters that `battery.shutdown_info` declares
(battery.py line 7: `def shutdown_info(battery_status):`). -/
def shutdown_info_paramCount : Nat := 1

/-- Number of positional arguments that `util_screen` passes to
`b.shutdown_info` (screen.py line 46:
`shutdown = b.shutdown_info(bat, feature_functions)`). -/
def util_screen_shutdown_callArgCount : Nat := 2

/-- screen.py lines 59-61: `next = status.shift(-1)`,
`dummy = status - next`, `missing_pre = np.where(dummy == 0, 1, 0)`.
Entry `i` is 1 when row `i` has the same status as row `i+1` of the whole
frame; the last entry compares against NaN and is 0. -/
def missingPre : List Event → List Nat
  | [] => []
  | [_] => [0]
  | a :: b :: t =>
      (if a.screen_status = b.screen_status then 1 else 0) :: missingPre (b :: t)

/-- screen.py line 62 then 64: `missing = missing_pre.shift(1)` followed by
`fillna(0)`; the flag of row `i` becomes `missing_pre` of row `i-1`, and
the first row gets 0. -/
def missingFlags (l : List Event) : List Nat :=
  match l with
  | [] => []
  | _ :: _ => 0 :: (missingPre l).dropLast

/-- screen.py line 66: `df = df[df.missing == 0]` applied to the frame
carrying the flags of `missingFlags`. -/
def dropMissing (l : List Event) : List Event :=
  (l.zip (missingFlags l)).filterMap (fun p => if p.2 = 0 then some p.1 else none)

/-- screen.py lines 33-68, `util_screen`.  The status column is already
numeric in this model (line 42 is the identity) and the
`screen_column_name` key only renames the status column, which the row
type fixes.  When the battery table is non-empty, line 46 calls
`b.shutdown_info(bat, feature_functions)`: two positional arguments for a
function of one parameter (battery.py line 7), so the call raises
`TypeError` before any merging happens.  With an empty battery table the
function sorts by (user, device, datetime) and drops the rows flagged by
the missing-data detection. -/
def util_screen (df bat : List Event) (feature_functions : Config) :
    Except PyError (List Event) :=
  if bat.isEmpty then
    Except.ok (dropMissing (sortLe evLe df))
  else
    Except.error PyError.typeError

/-- Event row carrying the `next` pair code of screen.py line 106
(`status.astype(int).astype(str) + status.shift(-1).fillna(0).astype(int).astype(str)`).
The code is the concatenation of the two decimal renderings; for integer
statuses the string `"CN"` determines and is determined by the pair
`(C, N)`, so the code is modelled as the pair of integers. -/
structure NEvent where
  ev : Event
  next : Int × Int
deriving DecidableEq

/-- screen.py line 106: pair each row with (own status, status of the next
row of the whole sorted frame), the final row taking 0 for the
`fillna(0)` placeholder. -/
def annotate : List Event → List NEvent
  | [] => []
  | [a] => [⟨a, (a.screen_status, 0)⟩]
  | a :: b :: t => ⟨a, (a.screen_status, b.screen_status)⟩ :: annotate (b :: t)

/-- `df.groupby("user", as_index=False).apply(lambda x: x.iloc[:-1])` on a
frame already sorted by user (screen.py lines 107, 121 and 149): the rows
of each user form one contiguous run, and the last row of each run is
removed. -/
def dropLastPerUser (key : α → Nat) : List α → List α
  | [] => []
  | [_] => []
  | a :: b :: t =>
      if key a = key b then a :: dropLastPerUser key (b :: t)
      else dropLastPerUser key (b :: t)

/-- Helper for `dropFirstPerUser`: walks the list remembering the previous
row; a row is kept exactly when the previous row belongs to the same
contiguous key run. -/
def dropFirstAux (key : α → Nat) : α → List α → List α
  | _, [] => []
  | prev, b :: t =>
      if key prev = key b then b :: dropFirstAux key b t
      else dropFirstAux key b t

/-- `df.groupby("user", as_index=False).apply(lambda x: x.iloc[1:])` on a
frame already sorted by user (screen.py line 120): the first row of each
contiguous user run is removed. -/
def dropFirstPerUser (key : α → Nat) : List α → List α
  | [] => []
  | a :: t => dropFirstAux key a t

/-- Pair codes mapped to the `use` flag (screen.py line 111: codes
`'30' | '31' | '32'`). -/
def useCodes : List (Int × Int) := [(3, 0), (3, 1), (3, 2)]

/-- Pair codes mapped to the `on` flag (screen.py line 112: codes
`'10' | '12' | '13' | '20'`). -/
def onCodes : List (Int × Int) := [(1, 0), (1, 2), (1, 3), (2, 0)]

/-- Pair codes mapped to the `na` flag (screen.py line 113: codes
`'21' | '23'`). -/
def naCodes : List (Int × Int) := [(2, 1), (2, 3)]

/-- Pair codes mapped to the `off` flag (screen.py line 114: codes
`'01' | '02' | '03'`). -/
def offCodes : List (Int × Int) := [(0, 1), (0, 2), (0, 3)]

/-- Row after the flag assignments of screen.py lines 109-114: the four
flag columns are initialised to 0 and each mask sets its own flag to 1 on
the rows whose pair code lies in its code set. -/
structure FNEvent where
  ev : Event
  next : Int × Int
  use : Int
  «on» : Int
  na : Int
  off : Int
deriving DecidableEq

/-- screen.py lines 109-114 for one row. -/
def assignFlags (n : NEvent) : FNEvent :=
  { ev := n.ev
    next := n.next
    use := if n.next ∈ useCodes then 1 else 0
    «on» := if n.next ∈ onCodes then 1 else 0
    na := if n.next ∈ naCodes then 1 else 0
    off := if n.next ∈ offCodes then 1 else 0 }

/-- screen.py lines 104-114: sort, build the pair codes, drop the last row
of every user (line 107) and assign the four flags. -/
def classifyFlagged (rows : List Event) : List FNEvent :=
  (dropLastPerUser (fun n => n.ev.user) (annotate (sortLe evLe rows))).map assignFlags

/-- Classified row after screen.py line 116 dropped the `next` and status
columns: identifying columns plus the four one-hot flags. -/
structure FEvent where
  user : Nat
  device : Nat
  time : Int
  datetime : Int
  use : Int
  «on» : Int
  na : Int
  off : Int
deriving DecidableEq

/-- screen.py line 116: drop the `next` and status columns. -/
def toFEvent (x : FNEvent) : FEvent :=
  { user := x.ev.user, device := x.ev.device, time := x.ev.time
    datetime := x.ev.datetime, use := x.use, «on» := x.«on», na := x.na, off := x.off }

/-- screen.py lines 95-124, `event_classification_screen`: classify and
then drop the first and the last row of every user (lines 120-121). -/
def event_classification_screen (rows : List Event) : List FEvent :=
  dropLastPerUser (fun r => r.user)
    (dropFirstPerUser (fun r => r.user) ((classifyFlagged rows).map toFEvent))

/-- Specification-side counterpart of lines 105-107: pair every event with
the status of the next event of the same user directly, instead of
shifting over the whole frame and discarding the per-user last rows. -/
def pairSameUser : List Event → List NEvent
  | [] => []
  | [_] => []
  | a :: b :: t =>
      if a.user = b.user then
        ⟨a, (a.screen_status, b.screen_status)⟩ :: pairSameUser (b :: t)
      else pairSameUser (b :: t)

/-- Key order used by the duration sort (screen.py line 143). -/
def fevLe (a b : FEvent) : Bool :=
  decide (a.user < b.user) ||
    (decide (a.user = b.user) &&
      (decide (a.device < b.device) ||
        (decide (a.device = b.device) && decide (a.datetime ≤ b.datetime))))

/-- screen.py lines 145-146: `duration = datetime.diff()` then
`duration = duration.shift(-1)`; row `i` receives
`datetime[i+1] - datetime[i]` and the final row receives NaT (`none`). -/
def durShift : List FEvent → List (FEvent × Option Int)
  | [] => []
  | [a] => [(a, none)]
  | a :: b :: t => (a, some (b.datetime - a.datetime)) :: durShift (b :: t)

/-- `duration > pd.Timedelta('10 hours')` for one cell; comparing NaT is
false, and 10 hours is 36000 seconds. -/
def overThr (d : Option Int) : Bool :=
  match d with
  | none => false
  | some x => decide (36000 < x)

/-- screen.py lines 154-156: the two artifact filters
`df = df[~((df.on==1) & (df.duration>thr))]` and
`df = df[~((df.use==1) & (df.duration>thr))]`. -/
def artifactFilter (rows : List (FEvent × Option Int)) : List (FEvent × Option Int) :=
  (rows.filter (fun r => !(decide (r.1.«on» = 1) && overThr r.2))).filter
    (fun r => !(decide (r.1.use = 1) && overThr r.2))

/-- screen.py lines 141-159, `duration_util_screen`: sort, attach the
shifted duration, drop the last row of every user (line 149) and apply
the two artifact filters.  `total_seconds()` is the identity because
datetimes are already seconds. -/
def duration_util_screen (rows : List FEvent) : List (FEvent × Option Int) :=
  artifactFilter (dropLastPerUser (fun r => r.1.user) (durShift (sortLe fevLe rows)))

/-- The rows held by the caller-owned frame after `duration_util_screen`
returns: lines 143-146 sort the caller frame in place and assign the
`duration` column on it; only line 149 rebinds `df` to a fresh object, so
every step up to there is visible to the caller. -/
def duration_util_screen_dfAfter (rows : List FEvent) : List (FEvent × Option Int) :=
  durShift (sortLe fevLe rows)

/-- Helper for `globalDedup`. -/
def globalDedupAux : Event → List Event → List Event
  | _, [] => []
  | prev, b :: t =>
      if b.screen_status = prev.screen_status then globalDedupAux b t
      else b :: globalDedupAux b t

/-- Specification-side description of the missing-data drop: keep the
first row of the sorted frame and afterwards exactly the rows whose
status differs from the status of the immediately preceding row of the
whole frame, user and device boundaries included. -/
def globalDedup : List Event → List Event
  | [] => []
  | a :: t => a :: globalDedupAux a t

/-- Sum of a projected column over a list of classified rows. -/
def sumBy (f : FEvent → Int) (l : List FEvent) : Int :=
  l.foldr (fun r s => f r + s) 0

/-- Distinct keys in order of first appearance, as produced by grouping. -/
def dedupKeys : List (Nat × Int) → List (Nat × Int)
  | [] => []
  | k :: t => k :: (dedupKeys t).filter (fun x => decide (x ≠ k))

/-- One output row of `screen_count`: the three summed flag columns keyed
by user and window start. -/
structure CountRow where
  user : Nat
  window : Int
  screen_on_count : Int
  screen_off_count : Int
  screen_use_count : Int
deriving DecidableEq

/-- screen.py lines 240-246: per user, resample by the configured rule and
sum each flag.  A window is identified by `datetime / rule`; windows with
no event are absent. -/
def screen_count_agg (rule : Int) (rows : List FEvent) : List CountRow :=
  (dedupKeys (rows.map (fun r => (r.user, r.datetime / rule)))).map (fun k =>
    let bucket := rows.filter (fun r =>
      decide (r.user = k.1) && decide (r.datetime / rule = k.2))
    { user := k.1, window := k.2
      screen_on_count := sumBy (fun r => r.«on») bucket
      screen_off_count := sumBy (fun r => r.off) bucket
      screen_use_count := sumBy (fun r => r.use) bucket })

/-- `.sum()` over a window of durations. -/
def aggSum (l : List Int) : Option Rat :=
  some ((l.foldr (· + ·) 0 : Int) : Rat)

/-- `.min()` over a window of durations. -/
def aggMin (l : List Int) : Option Rat :=
  match l with
  | [] => none
  | a :: t => some ((t.foldr min a : Int) : Rat)

/-- `.max()` over a window of durations. -/
def aggMax (l : List Int) : Option Rat :=
  match l with
  | [] => none
  | a :: t => some ((t.foldr max a : Int) : Rat)

/-- `.mean()` over a window of durations. -/
def aggMean (l : List Int) : Option Rat :=
  match l with
  | [] => none
  | _ :: _ => some (((l.foldr (· + ·) 0 : Int) : Rat) / (l.length : Rat))

/-- `.median()` over a window of durations. -/
def aggMedian (l : List Int) : Option Rat :=
  let s := sortLe (fun a b => decide (a ≤ b)) l
  let n := s.length
  if n = 0 then none
  else if n % 2 = 1 then (s[n / 2]?).map (fun x => (x : Rat))
  else
    match s[n / 2 - 1]?, s[n / 2]? with
    | some a, some b => some (((a : Rat) + (b : Rat)) / 2)
    | _, _ => none

/-- `.std()` over a window of durations, modelled by the sample variance
(its square) so the value stays rational; the claims under verification
never inspect aggregate values.  Fewer than two values give NaN. -/
def aggStd (l : List Int) : Option Rat :=
  match l with
  | [] => none
  | [_] => none
  | _ =>
    let n : Rat := (l.length : Rat)
    let m : Rat := ((l.foldr (· + ·) 0 : Int) : Rat) / n
    some ((l.foldr (fun x s => ((x : Rat) - m) * ((x : Rat) - m) + s) 0) / (n - 1))

/-- Aggregated duration table: one column per transition subset, keyed by
user and window start (screen.py lines 290-296 and the analogous lines of
the min/max/mean/median/std variants). -/
structure DurAggTable where
  onCol : List (Nat × Int × Option Rat)
  offCol : List (Nat × Int × Option Rat)
  useCol : List (Nat × Int × Option Rat)
deriving DecidableEq

/-- `df2[df2.<flag>==1].groupby("user")["duration"].resample(rule).<agg>()`
for one flag column: select the flagged subset, bucket by user and
window, and reduce the durations of each bucket. -/
def durWindowAgg (agg : List Int → Option Rat) (rule : Int)
    (rows : List (FEvent × Option Int)) (flag : FEvent → Int) :
    List (Nat × Int × Option Rat) :=
  let sel := rows.filter (fun r => decide (flag r.1 = 1))
  (dedupKeys (sel.map (fun r => (r.1.user, r.1.datetime / rule)))).map (fun k =>
    (k.1, k.2,
      agg ((sel.filter (fun r =>
        decide (r.1.user = k.1) && decide (r.1.datetime / rule = k.2))).filterMap
          (fun r => r.2))))

/-- screen.py lines 233-234 and analogous: insert the default
`resample_args = {"rule": "30T"}` (1800 seconds) into the configuration
when the key is absent. -/
def withDefaultResample (c : Config) : Config :=
  match c.resample_args with
  | none => { c with resample_args := some 1800 }
  | some _ => c

/-- The resampling rule of a configuration, in seconds. -/
def ruleOf (c : Config) : Int :=
  c.resample_args.getD 1800

/-- screen.py lines 161-198, `screen_off`: assert the configuration is a
mapping (None fails), run `util_screen`, keep the rows with status 0 and
emit (user, 1) rows. -/
def screen_off (df bat : List Event) (feature_functions : Option Config) :
    Except PyError (List (Nat × Int)) :=
  match feature_functions with
  | none => Except.error PyError.assertionError
  | some ff =>
    match util_screen df bat ff with
    | Except.error e => Except.error e
    | Except.ok d1 =>
      Except.ok (((d1.filter (fun r => decide (r.screen_status = 0))).map
        (fun r => (r.user, (1 : Int)))))

/-- screen.py lines 200-247, `screen_count`: assert the configuration is a
mapping (None fails), default the resample rule, run the merger and the
classifier, and aggregate when the classified frame is non-empty.  When
it is empty the `if len(df2)>0:` guard never assigns `result`, so
`return result` raises `UnboundLocalError`. -/
def screen_count (df bat : List Event) (feature_functions : Option Config) :
    Except PyError (List CountRow) :=
  match feature_functions with
  | none => Except.error PyError.assertionError
  | some ff =>
    let ff := withDefaultResample ff
    match util_screen df bat ff with
    | Except.error e => Except.error e
    | Except.ok d1 =>
      let df2 := event_classification_screen d1
      if df2.length > 0 then Except.ok (screen_count_agg (ruleOf ff) df2)
      else Except.error PyError.unboundLocalError

/-- Shared body of `screen_duration` and its min/max/mean/median/std
variants (screen.py lines 249-547), which differ only in the reduction
applied to each window of durations: assert the configuration is a
mapping, default the resample rule, run merger, classifier and duration
helper, and aggregate when the resulting frame is non-empty; otherwise
`result` is never assigned and `return result` raises
`UnboundLocalError`. -/
def screen_duration_core (agg : List Int → Option Rat) (df bat : List Event)
    (feature_functions : Option Config) : Except PyError DurAggTable :=
  match feature_functions with
  | none => Except.error PyError.assertionError
  | some ff =>
    let ff := withDefaultResample ff
    match util_screen df bat ff with
    | Except.error e => Except.error e
    | Except.ok d1 =>
      let df2 := duration_util_screen (event_classification_screen d1)
      if df2.length > 0 then
        Except.ok
          { onCol := durWindowAgg agg (ruleOf ff) df2 (fun r => r.«on»)
            offCol := durWindowAgg agg (ruleOf ff) df2 (fun r => r.off)
            useCol := durWindowAgg agg (ruleOf ff) df2 (fun r => r.use) }
      else Except.error PyError.unboundLocalError

/-- screen.py lines 249-297, `screen_duration` (windowed sums). -/
def screen_duration (df bat : List Event) (feature_functions : Option Config) :
    Except PyError DurAggTable :=
  screen_duration_core aggSum df bat feature_functions

/-- screen.py lines 299-347, `screen_duration_min`. -/
def screen_duration_min (df bat : List Event) (feature_functions : Option Config) :
    Except PyError DurAggTable :=
  screen_duration_core aggMin df bat feature_functions

/-- screen.py lines 349-397, `screen_duration_max`. -/
def screen_duration_max (df bat : List Event) (feature_functions : Option Config) :
    Except PyError DurAggTable :=
  screen_duration_core aggMax df bat feature_functions

/-- screen.py lines 399-447, `screen_duration_mean`. -/
def screen_duration_mean (df bat : List Event) (feature_functions : Option Config) :
    Except PyError DurAggTable :=
  screen_duration_core aggMean df bat feature_functions

/-- screen.py lines 449-497, `screen_duration_median`. -/
def screen_duration_median (df bat : List Event) (feature_functions : Option Config) :
    Except PyError DurAggTable :=
  screen_duration_core aggMedian df bat feature_functions

/-- screen.py lines 499-547, `screen_duration_std`. -/
def screen_duration_std (df bat : List Event) (feature_functions : Option Config) :
    Except PyError DurAggTable :=
  screen_duration_core aggStd df bat feature_functions

/-- screen.py lines 549-586, `screen_first_unlock`: run merger and
classifier and, per user and calendar day, take the minimum datetime of
the rows flagged `on`.  `feature_functions` is a required positional
parameter here (no None default in the source). -/
def screen_first_unlock (df bat : List Event) (feature_functions : Config) :
    Except PyError (List (Nat × Int × Option Int)) :=
  let ff := withDefaultResample feature_functions
  match util_screen df bat ff with
  | Except.error e => Except.error e
  | Except.ok d1 =>
    let df2 := event_classification_screen d1
    let sel := df2.filter (fun r => decide (r.«on» = 1))
    Except.ok ((dedupKeys (sel.map (fun r => (r.user, r.datetime / 86400)))).map
      (fun k =>
        (k.1, k.2,
          match (sel.filter (fun r =>
            decide (r.user = k.1) && decide (r.datetime / 86400 = k.2))).map
              (fun r => r.datetime) with
          | [] => none
          | a :: t => some (t.foldr min a))))

/-- The metric functions whose names start with `screen_`, in definition
order (the auto-discovered registry of screen.py line 588). -/
inductive MetricId where
  | screen_off
  | screen_count
  | screen_duration
  | screen_duration_min
  | screen_duration_max
  | screen_duration_mean
  | screen_duration_median
  | screen_duration_std
  | screen_first_unlock
deriving DecidableEq

/-- Output table of one metric function. -/
inductive MetricOut where
  | offT : List (Nat × Int) → MetricOut
  | countT : List CountRow → MetricOut
  | durT : DurAggTable → MetricOut
  | firstT : List (Nat × Int × Option Int) → MetricOut
deriving DecidableEq

/-- One loop iteration of the dispatcher (screen.py line 624:
`feature(df, bat, feature_arg)`); the configuration taken from the
mapping is a dict, so the per-metric assertion passes. -/
def runMetric (f : MetricId) (df bat : List Event) (arg : Config) :
    Except PyError MetricOut :=
  match f with
  | MetricId.screen_off => (screen_off df bat (some arg)).map MetricOut.offT
  | MetricId.screen_count => (screen_count df bat (some arg)).map MetricOut.countT
  | MetricId.screen_duration => (screen_duration df bat (some arg)).map MetricOut.durT
  | MetricId.screen_duration_min =>
      (screen_duration_min df bat (some arg)).map MetricOut.durT
  | MetricId.screen_duration_max =>
      (screen_duration_max df bat (some arg)).map MetricOut.durT
  | MetricId.screen_duration_mean =>
      (screen_duration_mean df bat (some arg)).map MetricOut.durT
  | MetricId.screen_duration_median =>
      (screen_duration_median df bat (some arg)).map MetricOut.durT
  | MetricId.screen_duration_std =>
      (screen_duration_std df bat (some arg)).map MetricOut.durT
  | MetricId.screen_first_unlock =>
      (screen_first_unlock df bat arg).map MetricOut.firstT

/-- screen.py lines 588-589: every `screen_`-named function paired with an
empty per-metric configuration. -/
def ALL_FEATURE_FUNCTIONS : List (MetricId × Config) :=
  [(MetricId.screen_off, emptyConfig),
   (MetricId.screen_count, emptyConfig),
   (MetricId.screen_duration, emptyConfig),
   (MetricId.screen_duration_min, emptyConfig),
   (MetricId.screen_duration_max, emptyConfig),
   (MetricId.screen_duration_mean, emptyConfig),
   (MetricId.screen_duration_median, emptyConfig),
   (MetricId.screen_duration_std, emptyConfig),
   (MetricId.screen_first_unlock, emptyConfig)]

/-- screen.py lines 616-619: `features` defaults to the full registry only
when it is None; any supplied mapping, the empty one included, is used as
given. -/
def selectedFeatures (features : Option (List (MetricId × Config))) :
    List (MetricId × Config) :=
  match features with
  | none => ALL_FEATURE_FUNCTIONS
  | some fs => fs

/-- screen.py lines 621-625: invoke each selected metric in order,
propagating the first failure. -/
def runAll (df bat : List Event) : List (MetricId × Config) →
    Except PyError (List MetricOut)
  | [] => Except.ok []
  | (f, arg) :: t =>
    match runMetric f df bat arg with
    | Except.error e => Except.error e
    | Except.ok o =>
      match runAll df bat t with
      | Except.error e => Except.error e
      | Except.ok os => Except.ok (o :: os)

/-- screen.py lines 591-629, `extract_features_screen`: run the selected
metrics and column-concatenate their tables; `pd.concat` of an empty list
of objects (line 627) raises `ValueError`. -/
def extract_features_screen (df bat : List Event)
    (features : Option (List (MetricId × Config))) :
    Except PyError (List MetricOut) :=
  match runAll df bat (selectedFeatures features) with
  | Except.error e => Except.error e
  | Except.ok outs =>
    if outs.isEmpty then Except.error PyError.valueError else Except.ok outs

/-! Concrete tables used by the individual verification results. -/

/-- Screen table of the C1 scenario: two screen-on events around a
shutdown. -/
def c1df : List Event := [⟨1, 1, 0, 0, 1⟩, ⟨1, 1, 10, 10, 1⟩]

/-- Battery table of the C1 scenario: a single shutdown record with
value -2 between the two screen events. -/
def c1bat : List Event := [⟨1, 1, 5, 5, -2⟩]

/-- Screen table whose classified set is empty: one user, three events,
no adjacent duplicate status. -/
def c2df : List Event :=
  [⟨1, 1, 0, 0, 0⟩, ⟨1, 1, 10, 10, 1⟩, ⟨1, 1, 20, 20, 0⟩]

/-- Two-event table producing one classified row with pair code (3, 0). -/
def c3rows : List Event := [⟨1, 1, 0, 0, 3⟩, ⟨1, 1, 5, 5, 0⟩]

/-- The single row that `classifyFlagged` produces from `c3rows`. -/
def c3x : FNEvent := ⟨⟨1, 1, 0, 0, 3⟩, (3, 0), 1, 0, 0, 0⟩

/-- The four events of the end-to-end scenario of C4. -/
def c4rows : List Event :=
  [⟨1, 1, 0, 0, 1⟩, ⟨1, 1, 5, 5, 3⟩, ⟨1, 1, 20, 20, 1⟩, ⟨1, 1, 600, 600, 0⟩]

/-- Expected flag-stage output for `c4rows`: pair codes (1,3), (3,1),
(1,0) carrying flags on, use, on. -/
def c4flagged : List FNEvent :=
  [⟨⟨1, 1, 0, 0, 1⟩, (1, 3), 0, 1, 0, 0⟩,
   ⟨⟨1, 1, 5, 5, 3⟩, (3, 1), 1, 0, 0, 0⟩,
   ⟨⟨1, 1, 20, 20, 1⟩, (1, 0), 0, 1, 0, 0⟩]

/-- The middle event of the C4 scenario after boundary trimming. -/
def c4mid : FEvent := ⟨1, 1, 5, 5, 1, 0, 0, 0⟩

/-- A classified on-transition lasting 11 hours (39600 seconds). -/
def c5row11 : FEvent × Option Int := (⟨1, 1, 0, 0, 0, 1, 0, 0⟩, some 39600)

/-- A classified on-transition lasting 9 hours (32400 seconds). -/
def c5row9 : FEvent × Option Int := (⟨1, 1, 0, 0, 0, 1, 0, 0⟩, some 32400)

/-- A classified off-transition lasting 20 hours. -/
def c5offRow : FEvent × Option Int := (⟨1, 1, 0, 0, 0, 0, 0, 1⟩, some 72000)

/-- Last event of user 1 in the C6 counterexample, status 0. -/
def c6eA : Event := ⟨1, 1, 0, 0, 0⟩

/-- First event of user 2, status 0: its status differs from the only
other reading of its own user sequence. -/
def c6eB1 : Event := ⟨2, 1, 0, 0, 0⟩

/-- Second event of user 2, status 1. -/
def c6eB2 : Event := ⟨2, 1, 5, 5, 1⟩

/-- First of two equal-status events of one user. -/
def c6w1 : Event := ⟨3, 1, 0, 0, 1⟩

/-- Second of two equal-status events of one user. -/
def c6w2 : Event := ⟨3, 1, 10, 10, 1⟩

/-- Classified row with the later datetime, listed first. -/
def c9r1 : FEvent := ⟨1, 1, 10, 10, 0, 1, 0, 0⟩

/-- Classified row with the earlier datetime, listed second. -/
def c9r2 : FEvent := ⟨1, 1, 0, 0, 0, 0, 0, 1⟩

/-! Helper lemmas. -/

/-- Dropping the per-user last rows of the globally shifted pair codes
yields exactly the same-user pairing: for every retained row the row
behind it in the sorted frame belongs to the same user. -/
theorem annotate_dropLast_eq (l : List Event) :
    dropLastPerUser (fun n => n.ev.user) (annotate l) = pairSameUser l := by
  induction l with
  | nil => rfl
  | cons a t ih =>
    cases t with
    | nil => rfl
    | cons b t2 =>
      cases t2 with
      | nil => rfl
      | cons c t3 =>
        have step :
            dropLastPerUser (fun n => n.ev.user) (annotate (a :: b :: c :: t3)) =
              if a.user = b.user then
                (⟨a, (a.screen_status, b.screen_status)⟩ : NEvent) ::
                  dropLastPerUser (fun n => n.ev.user) (annotate (b :: c :: t3))
              else dropLastPerUser (fun n => n.ev.user) (annotate (b :: c :: t3)) := rfl
        rw [step, ih]
        rfl

/-- A masked flag column holds 1 exactly on the rows whose pair code
belongs to the mask's code set. -/
theorem flag_ite_eq_one (p : Int × Int) (cs : List (Int × Int)) :
    ((if p ∈ cs then (1 : Int) else 0) = 1) ↔ p ∈ cs := by
  split
  · simp_all
  · simp_all

/-- The four code sets are pairwise disjoint, so at most one flag is set. -/
theorem flagsSum_le_one (p : Int × Int) :
    (if p ∈ useCodes then (1 : Int) else 0) + (if p ∈ onCodes then (1 : Int) else 0) +
      (if p ∈ naCodes then (1 : Int) else 0) +
      (if p ∈ offCodes then (1 : Int) else 0) ≤ 1 := by
  by_cases h1 : p ∈ useCodes
  · unfold useCodes at h1; fin_cases h1 <;> decide
  · by_cases h2 : p ∈ onCodes
    · unfold onCodes at h2; fin_cases h2 <;> decide
    · by_cases h3 : p ∈ naCodes
      · unfold naCodes at h3; fin_cases h3 <;> decide
      · by_cases h4 : p ∈ offCodes
        · unfold offCodes at h4; fin_cases h4 <;> decide
        · simp only [if_neg h1, if_neg h2, if_neg h3, if_neg h4]; decide

/-- `missingPre` of a non-empty frame is non-empty. -/
theorem missingPre_ne_nil (a : Event) (t : List Event) : missingPre (a :: t) ≠ [] := by
  cases t <;> simp [missingPre]

/-- Tail form of the equivalence between the shift-based missing-data
columns and the direct previous-row comparison. -/
theorem dropMissing_aux (t : List Event) : ∀ a : Event,
    ((t.zip ((missingPre (a :: t)).dropLast)).filterMap
      (fun p => if p.2 = 0 then some p.1 else none)) = globalDedupAux a t := by
  induction t with
  | nil => intro a; rfl
  | cons b t2 ih =>
    intro a
    cases t2 with
    | nil =>
      have e : ([b].zip ((missingPre [a, b]).dropLast)) =
          [(b, if a.screen_status = b.screen_status then 1 else 0)] := rfl
      rw [e, List.filterMap_cons]
      by_cases h : a.screen_status = b.screen_status
      · have e2 : globalDedupAux a [b] = [] := by
          show (if b.screen_status = a.screen_status then ([] : List Event) else [b]) = []
          rw [if_pos h.symm]
        rw [e2]
        simp [h]
      · have e2 : globalDedupAux a [b] = [b] := by
          show (if b.screen_status = a.screen_status then ([] : List Event) else [b]) = [b]
          rw [if_neg (fun hh => h hh.symm)]
        rw [e2]
        simp [h]
    | cons c t3 =>
      have e1 : missingPre (a :: b :: c :: t3) =
          (if a.screen_status = b.screen_status then 1 else 0) ::
            missingPre (b :: c :: t3) := rfl
      have e3 : (missingPre (a :: b :: c :: t3)).dropLast =
          (if a.screen_status = b.screen_status then 1 else 0) ::
            (missingPre (b :: c :: t3)).dropLast := by
        rw [e1]
        cases hmp : missingPre (b :: c :: t3) with
        | nil => exact absurd hmp (missingPre_ne_nil b (c :: t3))
        | cons m ms => rfl
      rw [e3, List.zip_cons_cons, List.filterMap_cons]
      by_cases h : a.screen_status = b.screen_status
      · have hba : b.screen_status = a.screen_status := h.symm
        have e4 : globalDedupAux a (b :: c :: t3) = globalDedupAux b (c :: t3) := by
          simp [globalDedupAux, hba]
        rw [e4, ← ih b]
        simp [h]
      · have hba : ¬ b.screen_status = a.screen_status := fun hh => h hh.symm
        have e4 : globalDedupAux a (b :: c :: t3) = b :: globalDedupAux b (c :: t3) := by
          simp [globalDedupAux, hba]
        rw [e4, ← ih b]
        simp [h]

/-- The shift-based missing-data drop of screen.py lines 58-66 equals the
direct description: keep a row exactly when its status differs from the
status of the immediately preceding row of the whole sorted frame. -/
theorem dropMissing_eq_globalDedup (l : List Event) : dropMissing l = globalDedup l := by
  cases l with
  | nil => rfl
  | cons a t =>
    show a :: ((t.zip ((missingPre (a :: t)).dropLast)).filterMap
      (fun p => if p.2 = 0 then some p.1 else none)) = a :: globalDedupAux a t
    rw [dropMissing_aux t a]

/-- Every row kept by `globalDedupAux prev` differs in status from its
neighbour, the previous kept row included. -/
theorem chain_globalDedupAux (t : List Event) : ∀ prev : Event,
    List.Chain' (fun a b => a.screen_status ≠ b.screen_status)
      (prev :: globalDedupAux prev t) := by
  induction t with
  | nil => intro prev; simp [globalDedupAux]
  | cons b t2 ih =>
    intro prev
    by_cases h : b.screen_status = prev.screen_status
    · have e : globalDedupAux prev (b :: t2) = globalDedupAux b t2 := by
        simp [globalDedupAux, h]
      rw [e]
      rcases List.chain'_cons'.mp (ih b) with ⟨hhead, htail⟩
      refine List.chain'_cons'.mpr ⟨?_, htail⟩
      intro y hy
      have hb := hhead y hy
      rw [← h]
      exact hb
    · have e : globalDedupAux prev (b :: t2) = b :: globalDedupAux b t2 := by
        simp [globalDedupAux, h]
      rw [e]
      exact List.chain'_cons.mpr ⟨fun hc => h hc.symm, ih b⟩

/-- No two adjacent rows of the deduplicated frame share a status. -/
theorem chain_globalDedup (l : List Event) :
    List.Chain' (fun a b => a.screen_status ≠ b.screen_status) (globalDedup l) := by
  cases l with
  | nil => simp [globalDedup]
  | cons a t => exact chain_globalDedupAux t a

/-- Insertion keeps the multiset of rows. -/
theorem insertLe_perm (le : α → α → Bool) (a : α) (l : List α) :
    (insertLe le a l).Perm (a :: l) := by
  induction l with
  | nil => exact List.Perm.refl _
  | cons b t ih =>
    unfold insertLe
    split
    · exact List.Perm.refl _
    · exact (List.Perm.cons b ih).trans (List.Perm.swap a b t)

/-- The stable sort keeps the multiset of rows. -/
theorem sortLe_perm (le : α → α → Bool) (l : List α) : (sortLe le l).Perm l := by
  induction l with
  | nil => exact List.Perm.refl _
  | cons a t ih => exact (insertLe_perm le a (sortLe le t)).trans (List.Perm.cons a ih)

/-- Attaching the shifted duration column does not change the rows. -/
theorem durShift_map_fst (l : List FEvent) : (durShift l).map Prod.fst = l := by
  induction l with
  | nil => rfl
  | cons a t ih =>
    cases t with
    | nil => rfl
    | cons b t2 =>
      show a :: (durShift (b :: t2)).map Prod.fst = a :: b :: t2
      rw [ih]

/-! Verification results for the individual claims. -/

/-- C1: with a non-empty battery table `util_screen` never reaches the
merge of shutdown events: screen.py line 46 passes two positional
arguments to `battery.shutdown_info`, which declares a single parameter,
so the call raises `TypeError` and no status-0 row is ever inserted. -/
theorem c1_shutdown_merge_typeerror (df bat : List Event)
    (feature_functions : Config) (h : bat ≠ []) :
    util_screen df bat feature_functions = Except.error PyError.typeError ∧
    util_screen_shutdown_callArgCount ≠ shutdown_info_paramCount := by
  constructor
  · unfold util_screen
    cases bat with
    | nil => exact absurd rfl h
    | cons b t => rfl
  · decide

/-- Witness for C1: the spec scenario itself, a battery value -2 recorded
between two screen events, makes `util_screen` raise. -/
theorem c1_shutdown_merge_typeerror_witness :
    util_screen c1df c1bat emptyConfig = Except.error PyError.typeError ∧
    util_screen_shutdown_callArgCount ≠ shutdown_info_paramCount :=
  c1_shutdown_merge_typeerror c1df c1bat emptyConfig (by decide)

/-- C2: when the classified and filtered input set is empty (here: three
events of one user, of which boundary trimming leaves none), the
`if len(df2)>0:` guard of every metric skips the aggregation without
assigning `result`, so `return result` raises `UnboundLocalError`
instead of returning an empty result. -/
theorem c2_empty_filtered_raises :
    screen_count c2df [] (some emptyConfig) = Except.error PyError.unboundLocalError ∧
    screen_duration c2df [] (some emptyConfig) = Except.error PyError.unboundLocalError ∧
    screen_duration_min c2df [] (some emptyConfig) =
      Except.error PyError.unboundLocalError ∧
    screen_duration_max c2df [] (some emptyConfig) =
      Except.error PyError.unboundLocalError ∧
    screen_duration_mean c2df [] (some emptyConfig) =
      Except.error PyError.unboundLocalError ∧
    screen_duration_median c2df [] (some emptyConfig) =
      Except.error PyError.unboundLocalError ∧
    screen_duration_std c2df [] (some emptyConfig) =
      Except.error PyError.unboundLocalError :=
  ⟨rfl, rfl, rfl, rfl, rfl, rfl, rfl⟩

/-- C3: every retained row of the classification stage carries the pair
code built from (current status, next status of the same user), and the
four flags follow the fixed pair-code table, with at most one flag set:
use on 30/31/32, on on 10/12/13/20, irrelevant (na) on 21/23, off on
01/02/03, and no flag on any other code. -/
theorem c3_pair_code_flags (rows : List Event) :
    classifyFlagged rows = (pairSameUser (sortLe evLe rows)).map assignFlags ∧
    ∀ x, x ∈ classifyFlagged rows →
      ((x.use = 1 ↔ x.next ∈ useCodes) ∧ (x.«on» = 1 ↔ x.next ∈ onCodes) ∧
       (x.na = 1 ↔ x.next ∈ naCodes) ∧ (x.off = 1 ↔ x.next ∈ offCodes) ∧
       x.use + x.«on» + x.na + x.off ≤ 1) := by
  constructor
  · unfold classifyFlagged
    rw [annotate_dropLast_eq]
  · intro x hx
    unfold classifyFlagged at hx
    rcases List.mem_map.mp hx with ⟨n, hn, hxn⟩
    subst hxn
    exact ⟨flag_ite_eq_one n.next useCodes, flag_ite_eq_one n.next onCodes,
      flag_ite_eq_one n.next naCodes, flag_ite_eq_one n.next offCodes,
      flagsSum_le_one n.next⟩

/-- Witness for C3 at the concrete two-event table `c3rows`, whose single
retained row has pair code (3, 0) and flag use. -/
theorem c3_pair_code_flags_witness :
    (c3x.use = 1 ↔ c3x.next ∈ useCodes) ∧ (c3x.«on» = 1 ↔ c3x.next ∈ onCodes) ∧
    (c3x.na = 1 ↔ c3x.next ∈ naCodes) ∧ (c3x.off = 1 ↔ c3x.next ∈ offCodes) ∧
    c3x.use + c3x.«on» + c3x.na + c3x.off ≤ 1 :=
  (c3_pair_code_flags c3rows).2 c3x (by decide)

/-- C4 counterexample: on the scenario events
(t=0,s=1), (t=5,s=3), (t=20,s=1), (t=600,s=0) the Duration Calculator
output is empty, so no row with duration 15 survives, contrary to the
claim that the middle event survives it with duration 15. -/
theorem c4_duration_counterexample :
    duration_util_screen (event_classification_screen c4rows) = [] ∧
    ¬ ∃ r ∈ duration_util_screen (event_classification_screen c4rows),
        r.2 = some 15 := by
  refine ⟨rfl, ?_⟩
  intro hex
  rcases hex with ⟨r, hr, _⟩
  rw [show duration_util_screen (event_classification_screen c4rows) = [] from rfl] at hr
  exact List.not_mem_nil r hr

/-- C4 amended: the classifier produces pair codes (1,3), (3,1), (1,0)
with flags on, use, on; boundary trimming leaves only the middle event
with flag use; the Duration Calculator then drops that sole row (its
duration to a next event is undefined, and the per-user last row is
discarded), so the scenario ends with an empty duration table. -/
theorem c4_scenario_amended :
    classifyFlagged c4rows = c4flagged ∧
    event_classification_screen c4rows = [c4mid] ∧
    duration_util_screen (event_classification_screen c4rows) = [] :=
  ⟨rfl, rfl, rfl⟩

/-- C5: the artifact filter drops a row exactly when its on flag is 1 and
its duration exceeds 10 hours, or its use flag is 1 and its duration
exceeds 10 hours; rows without those flags always survive, an 11-hour
on-transition is excluded and a 9-hour one retained. -/
theorem c5_artifact_filter_iff :
    (∀ (rows : List (FEvent × Option Int)) (r : FEvent × Option Int),
      r ∈ artifactFilter rows ↔
        (r ∈ rows ∧ ¬(r.1.«on» = 1 ∧ overThr r.2 = true) ∧
          ¬(r.1.use = 1 ∧ overThr r.2 = true))) ∧
    (∀ (rows : List (FEvent × Option Int)) (r : FEvent × Option Int),
      r ∈ rows → r.1.«on» ≠ 1 → r.1.use ≠ 1 → r ∈ artifactFilter rows) ∧
    artifactFilter [c5row11] = [] ∧ artifactFilter [c5row9] = [c5row9] := by
  have main : ∀ (rows : List (FEvent × Option Int)) (r : FEvent × Option Int),
      r ∈ artifactFilter rows ↔
        (r ∈ rows ∧ ¬(r.1.«on» = 1 ∧ overThr r.2 = true) ∧
          ¬(r.1.use = 1 ∧ overThr r.2 = true)) := by
    intro rows r
    unfold artifactFilter
    simp [List.mem_filter, and_assoc]
    tauto
  refine ⟨main, ?_, by decide, by decide⟩
  intro rows r hr hon huse
  exact (main rows r).mpr ⟨hr, fun hc => hon hc.1, fun hc => huse hc.1⟩

/-- Witness for C5: an off-flagged row with a 20-hour duration is kept by
the artifact filter. -/
theorem c5_artifact_filter_iff_witness : c5offRow ∈ artifactFilter [c5offRow] :=
  c5_artifact_filter_iff.2.1 [c5offRow] c5offRow (by decide) (by decide) (by decide)

/-- C6 counterexample: user 2 opens with a status-0 event whose status
differs from the only other reading of its own user sequence, yet the
merger drops it because the previous row of the merged frame — the last
event of user 1 — carries the same status: the comparison crosses user
boundaries, contrary to the per-user wording of the claim. -/
theorem c6_cross_user_counterexample :
    util_screen [c6eA, c6eB1, c6eB2] [] emptyConfig = Except.ok [c6eA, c6eB2] ∧
    c6eB1.screen_status ≠ c6eB2.screen_status :=
  ⟨rfl, by decide⟩

/-- C6 amended: an event is dropped exactly when its status equals the
status of the immediately preceding event of the whole sorted timeline,
user and device boundaries included; consequently no two consecutive
retained events — in particular none of the same user — share a status. -/
theorem c6_global_dedup_amended (df : List Event) (feature_functions : Config)
    (out : List Event) (h : util_screen df [] feature_functions = Except.ok out) :
    out = globalDedup (sortLe evLe df) ∧
    List.Chain' (fun a b => a.screen_status ≠ b.screen_status) out := by
  have h2 : dropMissing (sortLe evLe df) = out := by
    simpa [util_screen] using h
  constructor
  · rw [← h2, dropMissing_eq_globalDedup]
  · rw [← h2, dropMissing_eq_globalDedup]
    exact chain_globalDedup _

/-- Witness for C6 amended: of two equal-status events of one user the
second is dropped, and the retained timeline has no adjacent equal
statuses. -/
theorem c6_global_dedup_amended_witness :
    [c6w1] = globalDedup (sortLe evLe [c6w1, c6w2]) ∧
    List.Chain' (fun a b => a.screen_status ≠ b.screen_status) [c6w1] :=
  c6_global_dedup_amended [c6w1, c6w2] emptyConfig [c6w1] (by rfl)

/-- C7: `shutdown_info` keeps a battery value exactly when it lies
strictly between -3 and 0; the values 0, -3 and 1 are not shutdown
records, while -2 and -1 are. -/
theorem c7_shutdown_strictly_between :
    (∀ (l : List Int) (v : Int), v ∈ shutdown_info l ↔ (v ∈ l ∧ -3 < v ∧ v < 0)) ∧
    shutdown_info [0, -3, 1] = [] ∧ shutdown_info [-2, -1] = [-2, -1] := by
  refine ⟨?_, by decide, by decide⟩
  intro l v
  simp [shutdown_info, List.mem_filter, and_assoc]

/-- C8 counterexample: dispatching with the empty mapping (not None) does
not return successfully; `pd.concat` of the empty result list raises
`ValueError`. -/
theorem c8_empty_mapping_counterexample :
    extract_features_screen [] [] (some []) = Except.error PyError.valueError := rfl

/-- C8 amended: with an explicit empty mapping the dispatcher selects no
metric at all — never the full registry — but then raises `ValueError`
when concatenating the empty list of results instead of returning. -/
theorem c8_empty_mapping_amended (df bat : List Event) :
    selectedFeatures (some []) = [] ∧
    selectedFeatures (some []) ≠ ALL_FEATURE_FUNCTIONS ∧
    extract_features_screen df bat (some []) = Except.error PyError.valueError := by
  refine ⟨rfl, ?_, rfl⟩
  simp [selectedFeatures, ALL_FEATURE_FUNCTIONS]

/-- C9 counterexample: after `duration_util_screen` the caller-owned frame
no longer holds its rows in the original order — the in-place sort of
screen.py line 143 reordered them — so the input table is not left
unchanged. -/
theorem c9_caller_frame_mutated_counterexample :
    (duration_util_screen_dfAfter [c9r1, c9r2]).map Prod.fst ≠ [c9r1, c9r2] := by
  decide

/-- C9 amended: `duration_util_screen` mutates the caller frame in place;
afterwards the caller table holds the same rows re-sorted by
(user, device, datetime) — a permutation of the input — with a duration
column attached, rather than the unchanged original. -/
theorem c9_caller_frame_permuted_amended (rows : List FEvent) :
    ((duration_util_screen_dfAfter rows).map Prod.fst).Perm rows := by
  unfold duration_util_screen_dfAfter
  rw [durShift_map_fst]
  exact sortLe_perm fevLe rows

/-- C10: each of the eight metric functions that default
`feature_functions` to None asserts that it is a mapping before anything
else, so a call without the argument fails with an assertion error
instead of applying the documented defaults. -/
theorem c10_default_none_asserts (df bat : List Event) :
    screen_off df bat none = Except.error PyError.assertionError ∧
    screen_count df bat none = Except.error PyError.assertionError ∧
    screen_duration df bat none = Except.error PyError.assertionError ∧
    screen_duration_min df bat none = Except.error PyError.assertionError ∧
    screen_duration_max df bat none = Except.error PyError.assertionError ∧
    screen_duration_mean df bat none = Except.error PyError.assertionError ∧
    screen_duration_median df bat none = Except.error PyError.assertionError ∧
    screen_duration_std df bat none = Except.error PyError.assertionError :=
  ⟨rfl, rfl, rfl, rfl, rfl, rfl, rfl, rfl⟩
